import Mathlib

/-!
Verification of the FastAPI user service of this repository.

Shallow embedding of `src/FastAPI/app/services/user_service.py`,
`src/FastAPI/app/helpers/api_key_auth.py`,
`src/FastAPI/app/models/user.py` and the `UserModel` table of
`src/FastAPI/app/config/database.py`.

Timestamps are modelled as natural numbers.  Every call to Python's
`datetime.now()` is modelled by an explicit clock-reading argument; when a
function reads the clock twice (as `create_user` does, once per keyword
argument, evaluated left to right), it receives two readings `t1 ≤ t2`,
since a wall clock is monotone between two successive reads but need not
stand still.

The peewee storage layer is modelled as an explicit state: the list of
stored rows of the `users` table plus the `AutoField` counter that hands
out the next primary key.  Python exceptions (`fastapi.HTTPException`
raised by the service, and peewee's `DoesNotExist` escaping from
`UserModel.get_by_id`) are modelled with `Except`; an operation returns the
resulting storage state alongside, the unchanged input state when it
raised before any write.
-/

/-- The pydantic request model `User` of `models/user.py`: the payload a
caller supplies to create or update a user.  All seven fields are required
by pydantic. -/
structure User where
  id : Nat
  username : String
  user_email : String
  user_password : String
  user_pfp : String
  user_created : Nat
  user_updated : Nat
deriving Repr, DecidableEq

/-- A stored row of the `users` table (`UserModel` in
`config/database.py`): `id` is the `AutoField` primary key, the remaining
columns mirror the model fields. -/
structure UserRecord where
  id : Nat
  username : String
  user_email : String
  user_password : String
  user_pfp : String
  user_created : Nat
  user_updated : Nat
deriving Repr, DecidableEq

/-- The storage state: the rows of the `users` table in insertion order,
and the next value of the `AutoField` primary-key counter (peewee's
auto-increment starts at 1). -/
structure DBState where
  users : List UserRecord
  nextId : Nat
deriving Repr, DecidableEq

/-- The empty database right after table creation. -/
def DBState.initial : DBState := { users := [], nextId := 1 }

/-- A fault escaping from a service operation: either a
`fastapi.HTTPException` raised by the service itself (status code and
detail string), or peewee's `DoesNotExist` propagating out of
`UserModel.get_by_id` unhandled. -/
inductive ServiceFault where
  | httpException (status_code : Nat) (detail : String)
  | doesNotExist
deriving Repr, DecidableEq

/-- Result of `get_user`: either the row's full `__data__` dict or the
sentinel dict `{"error": "User not found"}` — the `try/except DoesNotExist`
in the source means `get_user` never lets a fault escape, which is why its
type here is total rather than `Except`. -/
inductive GetUserResult where
  | record (r : UserRecord)
  | errorPayload (msg : String)
deriving Repr, DecidableEq

/-- Result of `delete_user`: either the dict
`{"message": "User deleted successfully"}` or the sentinel dict
`{"error": "User not found"}`; as with `get_user`, the `try/except` means
no fault escapes. -/
inductive DeleteResult where
  | message (msg : String)
  | errorPayload (msg : String)
deriving Repr, DecidableEq

namespace UserService

/-- Embeds `UserService.get_users`:
`UserModel.select().where(UserModel.id > 0).dicts()` — every stored row
whose primary key exceeds zero, in storage order, no pagination. -/
def get_users (s : DBState) : List UserRecord :=
  s.users.filter (fun u => decide (u.id > 0))

/-- Embeds `UserService.get_user`: `UserModel.get(UserModel.id == user_id)` inside
`try/except DoesNotExist`; returns the row's `__data__` or
`{"error": "User not found"}`. -/
def get_user (s : DBState) (user_id : Nat) : GetUserResult :=
  match s.users.find? (fun u => u.id == user_id) with
  | some u => .record u
  | none => .errorPayload "User not found"

/-- Embeds `UserService.create_user`.  `get_or_none` on the email; a found row is
truthy, so the duplicate branch raises `HTTPException(400, ...)` before any
write.  Otherwise `UserModel.create(...)` inserts a fresh row: `id` from
the `AutoField` counter, the four data columns from the input, and the two
timestamp columns from two successive `datetime.now()` calls (`t1` for
`user_created`, evaluated first, then `t2` for `user_updated`); the
caller-supplied `id`, `user_created` and `user_updated` are never read. -/
def create_user (s : DBState) (user : User) (t1 t2 : Nat) :
    Except ServiceFault UserRecord × DBState :=
  match s.users.find? (fun u => u.user_email == user.user_email) with
  | some _ =>
      (.error (.httpException 400 "The email address is alredy in use."), s)
  | none =>
      let new_user : UserRecord :=
        { id := s.nextId
          username := user.username
          user_email := user.user_email
          user_password := user.user_password
          user_pfp := user.user_pfp
          user_created := t1
          user_updated := t2 }
      (.ok new_user, { users := s.users ++ [new_user], nextId := s.nextId + 1 })

/-- Embeds `UserService.update_user`.  `UserModel.get_by_id(user_id)` raises
`DoesNotExist` when no row has that primary key — so the subsequent
`if not existing_user: raise HTTPException(404, ...)` guard is unreachable
(a fetched model instance is always truthy).  On success every data column
is overwritten from the input, `user_created` included, while
`user_updated` is set to the clock reading `now`; `save()` writes the row
back under its unchanged primary key. -/
def update_user (s : DBState) (user_id : Nat) (user : User) (now : Nat) :
    Except ServiceFault (String × UserRecord) × DBState :=
  match s.users.find? (fun u => u.id == user_id) with
  | none => (.error .doesNotExist, s)
  | some existing_user =>
      let updated : UserRecord :=
        { id := existing_user.id
          username := user.username
          user_email := user.user_email
          user_password := user.user_password
          user_pfp := user.user_pfp
          user_created := user.user_created
          user_updated := now }
      (.ok ("User successfully updated", updated),
       { s with users := s.users.map (fun u => if u.id == user_id then updated else u) })

/-- Embeds `UserService.delete_user`: `UserModel.get(UserModel.id == user_id)`
then `delete_instance()`, inside `try/except DoesNotExist`. -/
def delete_user (s : DBState) (user_id : Nat) : DeleteResult × DBState :=
  match s.users.find? (fun u => u.id == user_id) with
  | some _ =>
      (.message "User deleted successfully",
       { s with users := s.users.filter (fun u => !(u.id == user_id)) })
  | none => (.errorPayload "User not found", s)

end UserService

/-- The fixed JSON error body of a 403 from `helpers/api_key_auth.py`. -/
structure AuthErrorBody where
  status : Bool
  status_code : Nat
  message : String
deriving Repr, DecidableEq

/-- The body the auth helper always attaches to its 403. -/
def unauthorizedBody : AuthErrorBody :=
  { status := false, status_code := 403, message := "Unauthorized" }

/-- Embeds `get_api_key` of `helpers/api_key_auth.py`.  `API_KEY` is
`os.getenv("API_KEY")` — `none` when the variable is unset; `api_key` is
the `x-api-key` header as delivered by `APIKeyHeader(auto_error=False)` —
`none` when the header is absent.  Python's `==` compares `None == None`
as true, hence `Option String` on both sides. -/
def get_api_key (API_KEY : Option String) (api_key : Option String) :
    Except (Nat × AuthErrorBody) (Option String) :=
  if api_key == API_KEY then .ok api_key
  else .error (403, unauthorizedBody)

/-! ## Concrete fixtures used by witnesses and counterexamples -/

/-- A stored row used as a concrete fixture. -/
def aliceRow : UserRecord :=
  { id := 1, username := "alice", user_email := "alice@mail.com",
    user_password := "pw1", user_pfp := "a.png",
    user_created := 10, user_updated := 10 }

/-- A database holding exactly the row `aliceRow`. -/
def oneUserDB : DBState := { users := [aliceRow], nextId := 2 }

/-- An input payload whose email collides with `aliceRow`. -/
def aliceInput : User :=
  { id := 99, username := "alice2", user_email := "alice@mail.com",
    user_password := "pw2", user_pfp := "b.png",
    user_created := 77, user_updated := 88 }

/-- An input payload with a fresh email. -/
def bobInput : User :=
  { id := 5, username := "bob", user_email := "bob@mail.com",
    user_password := "pw3", user_pfp := "c.png",
    user_created := 44, user_updated := 55 }

/-- The same data fields as `bobInput` but different caller-supplied `id`,
`user_created` and `user_updated`. -/
def bobInput2 : User :=
  { id := 123, username := "bob", user_email := "bob@mail.com",
    user_password := "pw3", user_pfp := "c.png",
    user_created := 0, user_updated := 0 }

/-- The row `create_user` inserts for `bobInput` into `DBState.initial`
with clock readings 3 and 4. -/
def bobCreated34 : UserRecord :=
  { id := 1, username := "bob", user_email := "bob@mail.com",
    user_password := "pw3", user_pfp := "c.png",
    user_created := 3, user_updated := 4 }

/-! ## Shared helper lemmas -/

/-- Replacing, in a list, every element whose id matches by a record that
itself matches keeps `find?` pointed at the (replaced) first match. -/
theorem find?_map_replace {l : List UserRecord} {uid : Nat} {e upd : UserRecord}
    (h : l.find? (fun r => r.id == uid) = some e) (hupd : (upd.id == uid) = true) :
    (l.map (fun r => if r.id == uid then upd else r)).find? (fun r => r.id == uid)
      = some upd := by
  induction l with
  | nil => simp at h
  | cons a l ih =>
      by_cases ha : (a.id == uid) = true
      · rw [List.map_cons, if_pos ha,
          List.find?_cons_of_pos (p := fun (r : UserRecord) => r.id == uid) _ hupd]
      · rw [List.find?_cons_of_neg (p := fun (r : UserRecord) => r.id == uid) _ ha] at h
        rw [List.map_cons, if_neg ha,
          List.find?_cons_of_neg (p := fun (r : UserRecord) => r.id == uid) _ ha]
        exact ih h

/-- After filtering away every element with the given id, `find?` for that
id comes up empty. -/
theorem find?_filter_not_self (l : List UserRecord) (uid : Nat) :
    (l.filter (fun u => !(u.id == uid))).find? (fun u => u.id == uid) = none := by
  apply List.find?_eq_none.mpr
  intro x hx
  have hb := (List.mem_filter.mp hx).2
  simpa using hb


/-! ## Claim theorems -/

/-- C1 (code bug): the spec promises a 404-equivalent rejection for a
missing id, and the dead `raise HTTPException(404, "User not found.")`
in the source shows that was the intent, but `UserModel.get_by_id` raises
peewee's `DoesNotExist` first, which escapes `update_user` unhandled.
Evaluated at the failing input (id 1 on an empty table): the fault is
`doesNotExist`, which is not the intended 404 exception. -/
theorem update_user_missing_id_escapes_doesNotExist :
    (UserService.update_user DBState.initial 1 bobInput 5).1
        = Except.error ServiceFault.doesNotExist ∧
    ServiceFault.doesNotExist ≠ ServiceFault.httpException 404 "User not found." := by
  exact ⟨rfl, by decide⟩

/-- C2: when some stored row already holds the input's email,
`create_user` raises the 400 `HTTPException` and leaves storage untouched;
when no stored row holds it, no error is raised and exactly the one fresh
row is appended, every pre-existing row unmodified. -/
theorem create_user_duplicate_email_rejects_else_inserts
    (s : DBState) (u : User) (t1 t2 : Nat) :
    ((∃ r ∈ s.users, r.user_email = u.user_email) →
        UserService.create_user s u t1 t2
          = (.error (.httpException 400 "The email address is alredy in use."), s)) ∧
    ((∀ r ∈ s.users, r.user_email ≠ u.user_email) →
        UserService.create_user s u t1 t2
          = (.ok { id := s.nextId, username := u.username,
                   user_email := u.user_email, user_password := u.user_password,
                   user_pfp := u.user_pfp, user_created := t1, user_updated := t2 },
             { users := s.users ++
                 [{ id := s.nextId, username := u.username,
                    user_email := u.user_email, user_password := u.user_password,
                    user_pfp := u.user_pfp, user_created := t1, user_updated := t2 }],
               nextId := s.nextId + 1 })) := by
  constructor
  · rintro ⟨r, hmem, heq⟩
    rcases hfind : s.users.find? (fun x => x.user_email == u.user_email) with _ | x
    · exact absurd (beq_iff_eq.mpr heq)
        (by simpa using List.find?_eq_none.mp hfind r hmem)
    · simp [UserService.create_user, hfind]
  · intro hnone
    rcases hfind : s.users.find? (fun x => x.user_email == u.user_email) with _ | x
    · simp [UserService.create_user, hfind]
    · have hx := List.find?_some hfind
      have hm := List.mem_of_find?_eq_some hfind
      exact absurd (by simpa using hx) (hnone x hm)

/-- C2 witness: on `oneUserDB` the colliding `aliceInput` is rejected with
the 400 exception and the state is unchanged; on the empty database the
fresh `bobInput` is inserted as the single new row. -/
theorem create_user_duplicate_email_witness :
    (UserService.create_user oneUserDB aliceInput 3 4
        = (.error (.httpException 400 "The email address is alredy in use."), oneUserDB)) ∧
    (UserService.create_user DBState.initial bobInput 3 4
        = (.ok { id := DBState.initial.nextId, username := bobInput.username,
                 user_email := bobInput.user_email,
                 user_password := bobInput.user_password,
                 user_pfp := bobInput.user_pfp, user_created := 3, user_updated := 4 },
           { users := DBState.initial.users ++
               [{ id := DBState.initial.nextId, username := bobInput.username,
                  user_email := bobInput.user_email,
                  user_password := bobInput.user_password,
                  user_pfp := bobInput.user_pfp, user_created := 3, user_updated := 4 }],
             nextId := DBState.initial.nextId + 1 })) :=
  ⟨(create_user_duplicate_email_rejects_else_inserts oneUserDB aliceInput 3 4).1
      ⟨aliceRow, by simp [oneUserDB], rfl⟩,
   (create_user_duplicate_email_rejects_else_inserts DBState.initial bobInput 3 4).2
      (by simp [DBState.initial])⟩

/-- C3 counterexample: the source reads `datetime.now()` once per timestamp
keyword argument, so when the clock advances between the two reads (here
readings 0 then 1, on an otherwise successful create) the returned record
has `user_created = 0` but `user_updated = 1` — the two timestamps are not
equal, contrary to the claim. -/
theorem create_user_timestamps_can_differ :
    (UserService.create_user DBState.initial bobInput 0 1).1
        = .ok { id := 1, username := "bob", user_email := "bob@mail.com",
                user_password := "pw3", user_pfp := "c.png",
                user_created := 0, user_updated := 1 } ∧
    (0 : Nat) ≠ 1 := ⟨rfl, by decide⟩

/-- C3 amended: on every successful create, `user_created` is the first
clock reading of the call and `user_updated` the second, so both lie
within the call and `user_created ≤ user_updated`; they are equal exactly
when the clock does not advance between the two reads. -/
theorem create_user_timestamps_from_call_clock
    (s : DBState) (u : User) (t1 t2 : Nat) (h : t1 ≤ t2)
    (r : UserRecord) (s' : DBState)
    (hok : UserService.create_user s u t1 t2 = (.ok r, s')) :
    r.user_created = t1 ∧ r.user_updated = t2 ∧
      r.user_created ≤ r.user_updated := by
  rcases hfind : s.users.find? (fun x => x.user_email == u.user_email) with _ | x
  · simp only [UserService.create_user, hfind, Prod.mk.injEq, Except.ok.injEq] at hok
    obtain ⟨hr, -⟩ := hok
    rw [← hr]
    exact ⟨rfl, rfl, h⟩
  · simp [UserService.create_user, hfind] at hok

/-- C3 amended, witness: creating `bobInput` in the empty database with
clock readings 3 then 4 yields timestamps 3 and 4. -/
theorem create_user_timestamps_witness :
    (3 : Nat) ≤ 4 ∧
    (bobCreated34.user_created = 3 ∧ bobCreated34.user_updated = 4 ∧
      bobCreated34.user_created ≤ bobCreated34.user_updated) :=
  ⟨by decide,
   create_user_timestamps_from_call_clock DBState.initial bobInput 3 4 (by decide)
     bobCreated34 { users := [bobCreated34], nextId := 2 } rfl⟩

/-- C4: for an existing id, `update_user` succeeds and writes back a row
whose `username`, `user_email`, `user_password`, `user_pfp` and — notably —
`user_created` all come from the caller-supplied input, while
`user_updated` is the clock reading of the call and the primary key stays
that of the stored row; the written row is what a lookup of that id then
finds. -/
theorem update_user_overwrites_all_fields_from_input
    (s : DBState) (uid : Nat) (u : User) (now : Nat) (e : UserRecord)
    (h : s.users.find? (fun r => r.id == uid) = some e) :
    (UserService.update_user s uid u now).1
        = .ok ("User successfully updated",
            { id := e.id, username := u.username, user_email := u.user_email,
              user_password := u.user_password, user_pfp := u.user_pfp,
              user_created := u.user_created, user_updated := now }) ∧
    (UserService.update_user s uid u now).2.users.find? (fun r => r.id == uid)
        = some { id := e.id, username := u.username, user_email := u.user_email,
                 user_password := u.user_password, user_pfp := u.user_pfp,
                 user_created := u.user_created, user_updated := now } := by
  have he : (e.id == uid) = true :=
    List.find?_some (p := fun (r : UserRecord) => r.id == uid) h
  constructor
  · simp [UserService.update_user, h]
  · simp only [UserService.update_user, h]
    exact find?_map_replace h he

/-- C4 witness: updating id 1 of `oneUserDB` with `bobInput` at clock 9
overwrites every field from the input, `user_created := 44` included,
sets `user_updated := 9`, and keeps the primary key 1. -/
theorem update_user_overwrites_witness :
    ((UserService.update_user oneUserDB 1 bobInput 9).1
        = .ok ("User successfully updated",
            { id := aliceRow.id, username := bobInput.username,
              user_email := bobInput.user_email,
              user_password := bobInput.user_password, user_pfp := bobInput.user_pfp,
              user_created := bobInput.user_created, user_updated := 9 }) ∧
    (UserService.update_user oneUserDB 1 bobInput 9).2.users.find?
        (fun r => r.id == 1)
        = some { id := aliceRow.id, username := bobInput.username,
                 user_email := bobInput.user_email,
                 user_password := bobInput.user_password, user_pfp := bobInput.user_pfp,
                 user_created := bobInput.user_created, user_updated := 9 }) :=
  update_user_overwrites_all_fields_from_input oneUserDB 1 bobInput 9 aliceRow rfl

/-- C5: `get_user` is a total function — the `try/except DoesNotExist`
means no fault ever escapes, as its non-`Except` return type records.
When some stored row has the requested id, the row's full attribute set is
returned; when no stored row has it, the sentinel payload
`{"error": "User not found"}` is returned, with no status change. -/
theorem get_user_total_record_or_error_payload (s : DBState) (uid : Nat) :
    (∀ u, s.users.find? (fun r => r.id == uid) = some u →
        UserService.get_user s uid = .record u) ∧
    ((∀ u ∈ s.users, u.id ≠ uid) →
        UserService.get_user s uid = .errorPayload "User not found") := by
  constructor
  · intro u hu
    simp [UserService.get_user, hu]
  · intro hall
    have hnone : s.users.find? (fun r => r.id == uid) = none :=
      List.find?_eq_none.mpr (fun x hx => by simpa using hall x hx)
    simp [UserService.get_user, hnone]

/-- C5 witness: on `oneUserDB`, id 1 returns the stored row and id 2
returns the sentinel payload. -/
theorem get_user_total_witness :
    UserService.get_user oneUserDB 1 = .record aliceRow ∧
    UserService.get_user oneUserDB 2 = .errorPayload "User not found" :=
  ⟨(get_user_total_record_or_error_payload oneUserDB 1).1 aliceRow rfl,
   (get_user_total_record_or_error_payload oneUserDB 2).2 (by decide)⟩

/-- C6: when the id is stored, `delete_user` answers with the success
message and removes the row, so that `get_user` on the same id against the
resulting state yields the not-found payload; when the id is not stored it
answers with the error payload — no fault in either case, as the total
return type records — and leaves the state unchanged. -/
theorem delete_user_removes_then_get_not_found (s : DBState) (uid : Nat) :
    ((s.users.find? (fun r => r.id == uid)).isSome →
        (UserService.delete_user s uid).1 = .message "User deleted successfully" ∧
        UserService.get_user (UserService.delete_user s uid).2 uid
          = .errorPayload "User not found") ∧
    (s.users.find? (fun r => r.id == uid) = none →
        UserService.delete_user s uid = (.errorPayload "User not found", s)) := by
  constructor
  · intro hsome
    rcases hfind : s.users.find? (fun r => r.id == uid) with _ | x
    · rw [hfind] at hsome
      simp at hsome
    · refine ⟨by simp [UserService.delete_user, hfind], ?_⟩
      have hn := find?_filter_not_self s.users uid
      simp only [UserService.delete_user, hfind, UserService.get_user, hn]
  · intro hnone
    simp [UserService.delete_user, hnone]

/-- C6 witness: deleting id 1 from `oneUserDB` succeeds and a subsequent
get of id 1 yields the not-found payload; deleting id 2 yields the error
payload and leaves the state as it was. -/
theorem delete_user_removes_witness :
    ((UserService.delete_user oneUserDB 1).1 = .message "User deleted successfully" ∧
     UserService.get_user (UserService.delete_user oneUserDB 1).2 1
        = .errorPayload "User not found") ∧
    UserService.delete_user oneUserDB 2 = (.errorPayload "User not found", oneUserDB) :=
  ⟨(delete_user_removes_then_get_not_found oneUserDB 1).1 rfl,
   (delete_user_removes_then_get_not_found oneUserDB 2).2 rfl⟩

/-- C7: `get_api_key` guards every route of the user router (it is wired
as a router-wide dependency in `main.py`); a header equal to the secret
passes through unchanged, any other header value is rejected with status
403 carrying the fixed body
`{"status": false, "status_code": 403, "message": "Unauthorized"}`. -/
theorem get_api_key_matches_secret_else_403 (secret header : Option String) :
    (header = secret → get_api_key secret header = .ok header) ∧
    (header ≠ secret → get_api_key secret header = .error (403, unauthorizedBody)) := by
  constructor
  · intro h
    simp [get_api_key, h]
  · intro h
    simp [get_api_key, h]

/-- C7 witness: the matching key "k" passes; the mismatching key "x"
against secret "k" is rejected with the fixed 403 body. -/
theorem get_api_key_matches_witness :
    get_api_key (some "k") (some "k") = .ok (some "k") ∧
    get_api_key (some "k") (some "x") = .error (403, unauthorizedBody) :=
  ⟨(get_api_key_matches_secret_else_403 (some "k") (some "k")).1 rfl,
   (get_api_key_matches_secret_else_403 (some "k") (some "x")).2 (by decide)⟩

/-- The id invariant the `AutoField` maintains: every stored primary key
is positive, and the counter itself never hands out 0. -/
def DBState.posIds (s : DBState) : Prop :=
  (∀ u ∈ s.users, 0 < u.id) ∧ 0 < s.nextId

/-- The freshly created table satisfies the id invariant. -/
theorem posIds_initial : DBState.initial.posIds := by
  constructor
  · intro u hu
    simp [DBState.initial] at hu
  · decide

/-- Creation preserves the id invariant: the inserted row's key is the
positive counter value. -/
theorem posIds_create_user (s : DBState) (u : User) (t1 t2 : Nat)
    (h : s.posIds) : (UserService.create_user s u t1 t2).2.posIds := by
  obtain ⟨hall, hn⟩ := h
  rcases hfind : s.users.find? (fun x => x.user_email == u.user_email) with _ | x
  · simp only [UserService.create_user, hfind]
    refine ⟨?_, Nat.succ_le_succ (Nat.zero_le _)⟩
    intro r hr
    rcases List.mem_append.mp hr with hl | hl
    · exact hall r hl
    · rcases List.mem_singleton.mp hl with rfl
      exact hn
  · simp only [UserService.create_user, hfind]
    exact ⟨hall, hn⟩

/-- Update preserves the id invariant: the written row keeps the stored
row's key. -/
theorem posIds_update_user (s : DBState) (uid : Nat) (u : User) (now : Nat)
    (h : s.posIds) : (UserService.update_user s uid u now).2.posIds := by
  obtain ⟨hall, hn⟩ := h
  rcases hfind : s.users.find? (fun x => x.id == uid) with _ | x
  · simp only [UserService.update_user, hfind]
    exact ⟨hall, hn⟩
  · simp only [UserService.update_user, hfind]
    refine ⟨?_, hn⟩
    intro r hr
    rcases List.mem_map.mp hr with ⟨a, ha, rfl⟩
    by_cases hc : (a.id == uid) = true
    · rw [if_pos hc]
      exact hall x (List.mem_of_find?_eq_some hfind)
    · rw [if_neg hc]
      exact hall a ha
  
/-- Deletion preserves the id invariant. -/
theorem posIds_delete_user (s : DBState) (uid : Nat)
    (h : s.posIds) : (UserService.delete_user s uid).2.posIds := by
  obtain ⟨hall, hn⟩ := h
  rcases hfind : s.users.find? (fun x => x.id == uid) with _ | x
  · simp only [UserService.delete_user, hfind]
    exact ⟨hall, hn⟩
  · simp only [UserService.delete_user, hfind]
    exact ⟨fun r hr => hall r (List.mem_filter.mp hr).1, hn⟩

/-- C8: `get_users` is exactly the stored list filtered to positive ids —
the embedding of `WHERE id > 0`, with no pagination — and, on any state
whose ids satisfy the `AutoField` invariant (all positive; established
above for the initial state and preserved by every operation), that filter
keeps every row, so all stored users are returned. -/
theorem get_users_returns_all_users (s : DBState) (h : s.posIds) :
    UserService.get_users s = s.users.filter (fun u => decide (u.id > 0)) ∧
    UserService.get_users s = s.users := by
  refine ⟨rfl, List.filter_eq_self.mpr ?_⟩
  intro u hu
  simpa using h.1 u hu

/-- C8 witness: `oneUserDB` satisfies the id invariant and its single
stored row is returned unfiltered. -/
theorem get_users_returns_all_witness :
    oneUserDB.posIds ∧
    (UserService.get_users oneUserDB
        = oneUserDB.users.filter (fun u => decide (u.id > 0)) ∧
     UserService.get_users oneUserDB = oneUserDB.users) :=
  ⟨⟨by decide, by decide⟩,
   get_users_returns_all_users oneUserDB ⟨by decide, by decide⟩⟩

/-- C9: with the `API_KEY` environment variable unset the secret is
`None`, and a request without an `x-api-key` header delivers `None` too
(`auto_error=False`); Python's `None == None` is true, so `get_api_key`
returns normally and the request passes authentication. -/
theorem get_api_key_unset_secret_missing_header_passes :
    get_api_key none none = .ok none := rfl

/-- C10: `create_user` never reads the caller-supplied `id`,
`user_created` or `user_updated`: two inputs agreeing on the four data
fields produce identical results whatever those three fields hold, and on
success the stored row's key is the `AutoField` counter value while both
timestamps are the server-side clock readings. -/
theorem create_user_ignores_caller_id_and_timestamps
    (s : DBState) (u v : User) (t1 t2 : Nat)
    (h1 : u.username = v.username) (h2 : u.user_email = v.user_email)
    (h3 : u.user_password = v.user_password) (h4 : u.user_pfp = v.user_pfp) :
    UserService.create_user s u t1 t2 = UserService.create_user s v t1 t2 ∧
    (∀ r s2, UserService.create_user s u t1 t2 = (.ok r, s2) →
        r.id = s.nextId ∧ r.user_created = t1 ∧ r.user_updated = t2) := by
  constructor
  · simp only [UserService.create_user, h1, h2, h3, h4]
  · intro r s2 hok
    rcases hfind : s.users.find? (fun x => x.user_email == u.user_email) with _ | x
    · simp only [UserService.create_user, hfind, Prod.mk.injEq,
        Except.ok.injEq] at hok
      obtain ⟨hr, -⟩ := hok
      rw [← hr]
      exact ⟨rfl, rfl, rfl⟩
    · simp [UserService.create_user, hfind] at hok

/-- C10 witness: `bobInput` and `bobInput2` differ exactly in the
caller-supplied `id`, `user_created` and `user_updated`, yet create the
same result; the row created from `bobInput` has the counter key 1 and the
server timestamps 3 and 4. -/
theorem create_user_ignores_caller_witness :
    UserService.create_user DBState.initial bobInput 3 4
        = UserService.create_user DBState.initial bobInput2 3 4 ∧
    (bobCreated34.id = DBState.initial.nextId ∧
      bobCreated34.user_created = 3 ∧ bobCreated34.user_updated = 4) :=
  ⟨(create_user_ignores_caller_id_and_timestamps DBState.initial bobInput bobInput2
      3 4 rfl rfl rfl rfl).1,
   (create_user_ignores_caller_id_and_timestamps DBState.initial bobInput bobInput2
      3 4 rfl rfl rfl rfl).2 bobCreated34 { users := [bobCreated34], nextId := 2 } rfl⟩
